import Mathlib

/-!
Verification of the rocBLAS kernel-execution and dispatch layer excerpt.

The definitions below are shallow embeddings of the C++/HIP sources:
the closed status enumeration, the argument-validation cascades of
`rocblas_her2_strided_batched_impl` and `rocblas_ger_arg_check`, the
`ger_kernel` / `rocblas_ger_template` semantics, the numerics-check
composition `rocblas_ger_check_numerics`, the reduction forwarders
`rocblas_asum_batched_template` / `rocblas_reduction_template`, and the
`rocblas_tbmv_batched_impl` control flow.  Machine integers
(`rocblas_int`, `rocblas_stride`) are modelled as unbounded `Int`: the
sources only compare them against each other and against zero, never
relying on wrap-around.  Nullable device pointers are modelled as
`Option Unit` where only nullity is inspected, and as index-to-value
functions (`Int → CInt`) where the pointed-to data is read or written.
Leaf routines whose bodies are not part of the sampled sources are
modelled from the specification and marked as such in their doc comments.
-/

/-- The closed status enumeration `rocblas_status` (spec section 4.6),
with the internal `rocblas_status_continue` verdict used by the argument
checkers. -/
inductive rocblas_status where
  | success
  | invalid_handle
  | invalid_value
  | invalid_size
  | invalid_pointer
  | memory_error
  | check_numerics_fail
  | internal_error
  | continue_
deriving DecidableEq, Repr

/-- `rocblas_fill` triangular-fill mode enumeration. -/
inductive rocblas_fill where
  | lower
  | upper
  | full
deriving DecidableEq, Repr

/-- `rocblas_operation` transpose-mode enumeration. -/
inductive rocblas_operation where
  | op_none
  | transpose
  | conjugate_transpose
deriving DecidableEq, Repr

/-- `rocblas_diagonal` enumeration. -/
inductive rocblas_diagonal where
  | non_unit
  | unit_diag
deriving DecidableEq, Repr

/-- `rocblas_pointer_mode` enumeration. -/
inductive rocblas_pointer_mode where
  | host
  | device
deriving DecidableEq, Repr

/-- The execution-context handle: the fields of `_rocblas_handle` that the
sampled implementations read (`is_device_memory_size_query()`,
`check_numerics`, `pointer_mode`).  A nullable handle argument is passed
as `Option rocblas_handle_t`. -/
structure rocblas_handle_t where
  is_device_memory_size_query : Bool
  check_numerics : Int
  pointer_mode : rocblas_pointer_mode
deriving DecidableEq, Repr

/-- Observable device-side effects of one public call, used to state
frame properties (no kernel launch, no allocation, size reporting). -/
inductive DeviceEffect where
  | kernel_launch
  | device_alloc
  | set_size (a b : Int)
deriving DecidableEq, Repr

/-- Arguments of `rocblas_her2_strided_batched_impl`.  Data pointers are
modelled by their nullity only, which is all the validation cascade
inspects. -/
structure Her2Args where
  uplo : rocblas_fill
  n : Int
  alpha : Option Unit
  x : Option Unit
  incx : Int
  stridex : Int
  y : Option Unit
  incy : Int
  stridey : Int
  A : Option Unit
  lda : Int
  strideA : Int
  batch_count : Int
deriving DecidableEq, Repr

/-- Outcomes of the callees of `rocblas_her2_strided_batched_impl` whose
bodies are outside the sampled sources: the `rocblas_her2_check_numerics`
input scan, the `rocblas_internal_her2_template` dispatch, and the
`rocblas_her2_check_numerics` output scan.  The implementation is proved
correct for every such outcome. -/
structure Her2Env where
  pre_scan : rocblas_status
  compute : rocblas_status
  post_scan : rocblas_status
deriving DecidableEq, Repr

/-- `rocblas_her2_strided_batched_impl` (rocblas_her2_strided_batched.cpp
lines 20-194): null-handle check, then the
`RETURN_ZERO_DEVICE_MEMORY_SIZE_IF_QUERIED` early return (the macro body
is not in the sampled sources; modelled from the spec: a size query
reports the required workspace size — zero here — and returns without
performing any work), then the validation cascade, then the pre-scan /
dispatch / post-scan sequence.  Logging has no effect on the result and
is omitted.  The second component records the device-side effects. -/
def rocblas_her2_strided_batched_impl (handle : Option rocblas_handle_t)
    (a : Her2Args) (env : Her2Env) : rocblas_status × List DeviceEffect :=
  match handle with
  | none => (.invalid_handle, [])
  | some h =>
    if h.is_device_memory_size_query then
      (.success, [DeviceEffect.set_size 0 0])
    else if a.uplo ≠ rocblas_fill.lower ∧ a.uplo ≠ rocblas_fill.upper then
      (.invalid_value, [])
    else if a.n < 0 ∨ a.incx = 0 ∨ a.incy = 0 ∨ a.batch_count < 0 ∨ a.lda < a.n ∨ a.lda < 1 then
      (.invalid_size, [])
    else if a.n = 0 ∨ a.batch_count = 0 then
      (.success, [])
    else if a.x.isNone ∨ a.y.isNone ∨ a.A.isNone ∨ a.alpha.isNone then
      (.invalid_pointer, [])
    else if h.check_numerics ≠ 0 ∧ env.pre_scan ≠ .success then
      (env.pre_scan, [])
    else if env.compute ≠ .success then
      (env.compute, [DeviceEffect.kernel_launch])
    else if h.check_numerics ≠ 0 ∧ env.post_scan ≠ .success then
      (env.post_scan, [DeviceEffect.kernel_launch])
    else
      (env.compute, [DeviceEffect.kernel_launch])

/-- `rocblas_ger_arg_check` (part_002 lines 83-111), transcribed clause by
clause: size/stride violations, then the degenerate quick return, then
the null-pointer check, otherwise `continue`. -/
def rocblas_ger_arg_check (m n : Int) (alpha : Option Unit)
    (x : Option Unit) (incx : Int)
    (y : Option Unit) (incy : Int)
    (A : Option Unit) (lda : Int)
    (batch_count : Int) : rocblas_status :=
  if m < 0 ∨ n < 0 ∨ incx = 0 ∨ incy = 0 ∨ lda < m ∨ lda < 1 ∨ batch_count < 0 then
    .invalid_size
  else if m = 0 ∨ n = 0 ∨ batch_count = 0 then
    .success
  else if alpha.isNone ∨ x.isNone ∨ y.isNone ∨ A.isNone then
    .invalid_pointer
  else
    .continue_

/-- The complex element type backing `rocblas_float_complex` and
`rocblas_double_complex`, with exact integer components so that the
kernel dataflow (additions, multiplications, conjugation, the `!alpha`
zero test) is modelled exactly. -/
structure CInt where
  re : Int
  im : Int
deriving DecidableEq, Repr

instance : Zero CInt := ⟨⟨0, 0⟩⟩

instance : Add CInt := ⟨fun a b => ⟨a.re + b.re, a.im + b.im⟩⟩

instance : Mul CInt := ⟨fun a b => ⟨a.re * b.re - a.im * b.im, a.re * b.im + a.im * b.re⟩⟩

/-- Complex conjugation, as used by the `CONJ` kernel specialization. -/
def CInt.conj (a : CInt) : CInt := ⟨a.re, -a.im⟩

/-- The `CONJ ? conj(v) : v` selection inside `ger_kernel`. -/
def cconj (CONJ : Bool) (v : CInt) : CInt := if CONJ then CInt.conj v else v

/-- The `alpha_device_host` argument of a kernel: either a host scalar
value or a device pointer into scalar memory (pointer-mode dependent,
ger_template lines 152-195 pass one or the other). -/
inductive scalar_arg where
  | host_value (v : CInt)
  | device_ptr (p : Int → CInt)

/-- `load_scalar`: a host value is returned as is; a device pointer is
read at `blockIdx.z * stride`. -/
def load_scalar (a : scalar_arg) (z : Nat) (stride : Int) : CInt :=
  match a with
  | .host_value v => v
  | .device_ptr p => p ((z : Int) * stride)

/-- `load_ptr_batch` for the strided-batched convention: the per-batch
base of a buffer is `base + shift + batch * stride`; reading relative
index `r` through it reads absolute index `shift + batch * stride + r`. -/
def load_ptr_batch (base : Int → CInt) (z : Nat) (shift stride : Int) : Int → CInt :=
  fun r => base (shift + (z : Int) * stride + r)

/-- The output positions `(i, j)` covered by the `ger_kernel` grid for
one batch item: every `i < m`, `j < n` exactly once (the `DIM_X`/`DIM_Y`
/`WIN` tiling partitions this index set). -/
def ger_updates (m n : Nat) : List (Nat × Nat) :=
  (List.range m).flatMap (fun i => (List.range n).map (fun j => (i, j)))

/-- Functional semantics of `ger_kernel` (part_002 lines 19-80) for the
batch item `z`: load alpha (early return leaving `A` untouched when it is
zero, lines 39-41), then for every in-range `(i, j)` perform
`A[i + lda * j] += alpha * x[i * incx] * (CONJ ? conj(y[j * incy]) : y[j * incy])`
through the shifted per-batch bases.  The shared-memory staging of the
source kernel only caches these same reads and is semantically
transparent.  The result is the updated contents of the `A` memory. -/
def ger_kernel (CONJ : Bool) (m n : Nat) (alpha_device_host : scalar_arg)
    (stride_alpha : Int)
    (xa : Int → CInt) (shiftx incx stridex : Int)
    (ya : Int → CInt) (shifty incy stridey : Int)
    (Aa : Int → CInt) (shifta : Int) (lda : Int) (strideA : Int)
    (z : Nat) : Int → CInt :=
  let alpha := load_scalar alpha_device_host z stride_alpha
  if alpha = 0 then Aa
  else
    let x := load_ptr_batch xa z shiftx stridex
    let y := load_ptr_batch ya z shifty stridey
    let abase := shifta + (z : Int) * strideA
    (ger_updates m n).foldl
      (fun A ij => fun idx =>
        if idx = abase + (ij.1 : Int) + lda * (ij.2 : Int) then
          A idx + alpha * x ((ij.1 : Int) * incx) * cconj CONJ (y ((ij.2 : Int) * incy))
        else A idx)
      Aa

/-- The negative-increment base shift of `rocblas_ger_template`
(part_002 lines 140-141):
`shift = inc < 0 ? offset - inc * (len - 1) : offset`. -/
def ger_shift (offset inc len : Int) : Int :=
  if inc < 0 then offset - inc * (len - 1) else offset

/-- Per-batch-item semantics of `rocblas_ger_template` (part_002 lines
114-197): the degenerate quick return, the negative-increment base
shifts, then the `ger_kernel` grid launch for batch index `z`. -/
def rocblas_ger_template_batch (CONJ : Bool) (m n : Int)
    (alpha : scalar_arg) (stride_alpha : Int)
    (x : Int → CInt) (offsetx incx stridex : Int)
    (y : Int → CInt) (offsety incy stridey : Int)
    (A : Int → CInt) (offsetA lda strideA : Int)
    (batch_count : Int) (z : Nat) : Int → CInt :=
  if m = 0 ∨ n = 0 ∨ batch_count = 0 then A
  else
    ger_kernel CONJ m.toNat n.toNat alpha stride_alpha
      x (ger_shift offsetx incx m) incx stridex
      y (ger_shift offsety incy n) incy stridey
      A offsetA lda strideA z

/-- The mirror of the memory of a vector of `len` elements based at
`offset` with positive increment `absinc`: position `offset + j * absinc`
of the mirror holds position `offset + (len - 1 - j) * absinc` of the
original, i.e. the element order of the stored vector is reversed. -/
def reverse_vec_mem (mem : Int → CInt) (offset absinc len : Int) : Int → CInt :=
  fun idx => mem (2 * offset + (len - 1) * absinc - idx)

/-- One IEEE floating-point component, abstracted to its classification:
NaN, infinite, zero, or an ordinary finite value (all three flags
false).  Floating-point payloads are irrelevant to the numerics scan,
which only classifies. -/
structure fp_part where
  is_nan : Bool
  is_inf : Bool
  is_zero : Bool
deriving DecidableEq, Repr

/-- A buffer element: real and imaginary components.  A real-typed
buffer is the special case where every imaginary component is the finite
zero. -/
structure fp_elem where
  re : fp_part
  im : fp_part
deriving DecidableEq, Repr

/-- A component is non-finite when it is NaN or Inf. -/
def fp_part_nonfinite (p : fp_part) : Bool := p.is_nan || p.is_inf

/-- An element fails the scan when either component is non-finite;
zero components never do. -/
def fp_elem_nonfinite (e : fp_elem) : Bool :=
  fp_part_nonfinite e.re || fp_part_nonfinite e.im

/-- The finite zero component. -/
def fp_zero_part : fp_part := ⟨false, false, true⟩

/-- The all-zero element. -/
def fp_zero : fp_elem := ⟨fp_zero_part, fp_zero_part⟩

/-- Modelled from the spec: `rocblas_check_numerics_vector_template` —
its body is not in the sampled sources (only its callers
`rocblas_ger_check_numerics` and the tests in testing_syrk.hpp are).
Per spec section 4.2 it scans, for each batch item, the `n` elements of
the vector addressed through offset/increment/stride, detects IEEE NaN
and Inf elementwise (either component of a complex element failing the
element), tracks zeros only for diagnostics, mutates nothing, and in
fail mode returns `check_numerics_fail` when a non-finite element is
found and `success` otherwise; when checking is disabled it scans
nothing and returns `success`. -/
def rocblas_check_numerics_vector_template (n : Int) (x : Int → fp_elem)
    (offset inc stride batch_count check_numerics : Int)
    (is_input : Bool) : rocblas_status :=
  if check_numerics = 0 then .success
  else if (List.range batch_count.toNat).any (fun b =>
      (List.range n.toNat).any (fun i =>
        fp_elem_nonfinite (x (offset + (b : Int) * stride + (i : Int) * inc)))) then
    .check_numerics_fail
  else .success

/-- Modelled from the spec: `rocblas_check_numerics_ge_matrix_template`
— its body is not in the sampled sources.  Per spec section 4.2 it
scans, for each batch item, the `m × n` elements of the general matrix
stored with leading dimension `lda`, with the same elementwise NaN/Inf
detection and fail-mode verdict as the vector scan. -/
def rocblas_check_numerics_ge_matrix_template (m n : Int) (A : Int → fp_elem)
    (offset lda stride batch_count check_numerics : Int)
    (is_input : Bool) : rocblas_status :=
  if check_numerics = 0 then .success
  else if (List.range batch_count.toNat).any (fun b =>
      (List.range n.toNat).any (fun j =>
        (List.range m.toNat).any (fun i =>
          fp_elem_nonfinite
            (A (offset + (b : Int) * stride + (i : Int) + lda * (j : Int)))))) then
    .check_numerics_fail
  else .success

/-- `rocblas_ger_check_numerics` (part_002 lines 200-261): scan the
matrix `A`, propagate a non-success verdict immediately, otherwise scan
the length-`m` vector `x`, propagate, otherwise scan the length-`n`
vector `y` and return its verdict. -/
def rocblas_ger_check_numerics (m n : Int)
    (A : Int → fp_elem) (offset_a lda stride_a : Int)
    (x : Int → fp_elem) (offset_x inc_x stride_x : Int)
    (y : Int → fp_elem) (offset_y inc_y stride_y : Int)
    (batch_count check_numerics : Int) (is_input : Bool) : rocblas_status :=
  let s1 := rocblas_check_numerics_ge_matrix_template m n A offset_a lda stride_a
      batch_count check_numerics is_input
  if s1 ≠ .success then s1
  else
    let s2 := rocblas_check_numerics_vector_template m x offset_x inc_x stride_x
        batch_count check_numerics is_input
    if s2 ≠ .success then s2
    else rocblas_check_numerics_vector_template n y offset_y inc_y stride_y
        batch_count check_numerics is_input

/-- The element indices a reduction over one batch item reads:
`shiftx + b * stridex + i * incx` for `i < n` (none when `n ≤ 0`). -/
def reduction_read_indices (n shiftx incx stridex : Int) (b : Nat) : List Int :=
  (List.range n.toNat).map (fun i => shiftx + (b : Int) * stridex + (i : Int) * incx)

/-- Modelled from the spec: `rocblas_reduction_strided_batched` — the
reduction-engine body is not in the sampled sources (only the forwarders
`rocblas_reduction_template` and `rocblas_asum_batched_template` are).
Per spec section 4.4 it computes, per batch item,
`finalize(combine over all fetched elements)` with an associative
commutative combiner; a zero-length input yields the combiner identity
and reads no memory.  The model returns the status, the per-batch
results, and the list of element indices read. -/
def rocblas_reduction_strided_batched {β : Type} (fetch : CInt → β)
    (reduce : β → β → β) (finalize : β → β) (identity : β)
    (n : Int) (x : Nat → Int → CInt) (shiftx incx stridex batch_count : Int) :
    rocblas_status × (Nat → β) × List Int :=
  (.success,
   fun b =>
     finalize (((reduction_read_indices n shiftx incx stridex b).map
       (fun r => fetch (x b r))).foldl reduce identity),
   (List.range batch_count.toNat).flatMap
     (reduction_read_indices n shiftx incx stridex))

/-- `rocblas_reduction_template` (rocblas_reduction_template.hpp lines
18-30): forwards verbatim to `rocblas_reduction_strided_batched`. -/
def rocblas_reduction_template {β : Type} (fetch : CInt → β)
    (reduce : β → β → β) (finalize : β → β) (identity : β)
    (n : Int) (x : Nat → Int → CInt) (shiftx incx stridex batch_count : Int) :
    rocblas_status × (Nat → β) × List Int :=
  rocblas_reduction_strided_batched fetch reduce finalize identity
    n x shiftx incx stridex batch_count

/-- Modelled from the spec: `rocblas_fetch_asum` — body not in the
sampled sources; the sum-of-magnitudes fetch transform, `|re| + |im|`
for a complex element. -/
def rocblas_fetch_asum (v : CInt) : Int := |v.re| + |v.im|

/-- Modelled from the spec: `rocblas_reduce_sum` — the additive
combiner, whose identity is 0. -/
def rocblas_reduce_sum (a b : Int) : Int := a + b

/-- Modelled from the spec: `rocblas_finalize_identity` — the identity
finalize transform. -/
def rocblas_finalize_identity (a : Int) : Int := a

/-- `rocblas_asum_batched_template` (rocblas_asum_batched.hpp lines
10-28): instantiates the reduction template with the asum fetch, the sum
combiner and the identity finalize, passing `stridex_0 = 0` (the batched
convention indexes per-item pointers, here the batch argument of the
memory function). -/
def rocblas_asum_batched_template (n : Int) (x : Nat → Int → CInt)
    (shiftx incx batch_count : Int) :
    rocblas_status × (Nat → Int) × List Int :=
  rocblas_reduction_template rocblas_fetch_asum rocblas_reduce_sum
    rocblas_finalize_identity 0 n x shiftx incx 0 batch_count

/-- Arguments of `rocblas_tbmv_batched_impl` (part_001 lines 41-52). -/
structure TbmvArgs where
  uplo : rocblas_fill
  transA : rocblas_operation
  diag : rocblas_diagonal
  n : Int
  k : Int
  A : Option Unit
  lda : Int
  x : Option Unit
  incx : Int
  batch_count : Int
deriving DecidableEq, Repr

/-- Outcomes of the callees of `rocblas_tbmv_batched_impl` whose bodies
are outside the sampled sources: whether `handle->device_malloc`
succeeds, the `setup_batched_array` status, the two
`rocblas_tbmv_check_numerics` scans and the
`rocblas_internal_tbmv_launcher` dispatch. -/
structure TbmvEnv where
  malloc_ok : Bool
  setup : rocblas_status
  pre_scan : rocblas_status
  compute : rocblas_status
  post_scan : rocblas_status
deriving DecidableEq, Repr

/-- Modelled from the spec: `rocblas_tbmv_arg_check` — its body is not in
the sampled sources (part_001 line 126 only calls it).  Per spec section
4.1 it applies the ordered rules to the tbmv shape: an enumerated mode
argument outside its legal set yields `invalid_value`; a size/stride
violation (`n < 0`, `k < 0`, `lda < k + 1`, zero increment, negative
batch count) yields `invalid_size`; a degenerate problem yields
`success`; otherwise `continue` (the caller performs the null-pointer
check itself, part_001 line 131). -/
def rocblas_tbmv_arg_check (a : TbmvArgs) : rocblas_status :=
  if a.uplo ≠ rocblas_fill.lower ∧ a.uplo ≠ rocblas_fill.upper then
    .invalid_value
  else if a.n < 0 ∨ a.k < 0 ∨ a.lda < a.k + 1 ∨ a.incx = 0 ∨ a.batch_count < 0 then
    .invalid_size
  else if a.n = 0 ∨ a.batch_count = 0 then
    .success
  else
    .continue_

/-- `rocblas_tbmv_batched_impl` (part_001 lines 41-212): null-handle
check, argument check, null-pointer check, then either the
size-query early return
(`handle->set_optimal_device_memory_size(sizeof(T) * n * batch_count,
sizeof(T*) * batch_count)`, reported as a `set_size` effect with the
per-instantiation constants `sizeofT`/`sizeofPtr`) or workspace
allocation, the `setup_batched_array` staging, and the scan / dispatch /
scan sequence.  Logging has no effect on the result and is omitted. -/
def rocblas_tbmv_batched_impl (sizeofT sizeofPtr : Int)
    (handle : Option rocblas_handle_t) (a : TbmvArgs) (env : TbmvEnv) :
    rocblas_status × List DeviceEffect :=
  match handle with
  | none => (.invalid_handle, [])
  | some h =>
    let arg_status := rocblas_tbmv_arg_check a
    if arg_status ≠ .continue_ then (arg_status, [])
    else if a.A.isNone ∨ a.x.isNone then (.invalid_pointer, [])
    else if h.is_device_memory_size_query then
      (.success,
       [DeviceEffect.set_size (sizeofT * a.n * a.batch_count) (sizeofPtr * a.batch_count)])
    else if ¬ env.malloc_ok then (.memory_error, [DeviceEffect.device_alloc])
    else if env.setup ≠ .success then
      (env.setup, [DeviceEffect.device_alloc, DeviceEffect.kernel_launch])
    else if h.check_numerics ≠ 0 ∧ env.pre_scan ≠ .success then
      (env.pre_scan, [DeviceEffect.device_alloc, DeviceEffect.kernel_launch])
    else if env.compute ≠ .success then
      (env.compute,
       [DeviceEffect.device_alloc, DeviceEffect.kernel_launch, DeviceEffect.kernel_launch])
    else if h.check_numerics ≠ 0 ∧ env.post_scan ≠ .success then
      (env.post_scan,
       [DeviceEffect.device_alloc, DeviceEffect.kernel_launch, DeviceEffect.kernel_launch])
    else
      (env.compute,
       [DeviceEffect.device_alloc, DeviceEffect.kernel_launch, DeviceEffect.kernel_launch])

/-- An internal C++ fault (exception) that an implementation body may
raise during a public call. -/
inductive rocblas_fault where
  | fault (code : Nat)
deriving DecidableEq, Repr

/-- Modelled from the spec: `exception_to_rocblas_status` — its body is
not in the sampled sources (the `IMPL` catch blocks only call it).  Per
spec sections 4.6 and 7, any internal fault reaching the public boundary
is mapped to the `internal_error` member of the closed enumeration. -/
def exception_to_rocblas_status (_f : rocblas_fault) : rocblas_status :=
  .internal_error

/-- The body of a public her2 call as executed inside the `try` block:
either the implementation runs to completion and produces its status, or
an internal fault interrupts it (`fault = some f`) and propagates as an
exception. -/
def rocblas_her2_strided_batched_body (fault : Option rocblas_fault)
    (handle : Option rocblas_handle_t) (a : Her2Args) (env : Her2Env) :
    Except rocblas_fault rocblas_status :=
  match fault with
  | some f => .error f
  | none => .ok (rocblas_her2_strided_batched_impl handle a env).1

/-- The public C entry point `rocblas_cher2_strided_batched`
(rocblas_her2_strided_batched.cpp lines 206-228): the `try { return
impl(...); } catch(...) { return exception_to_rocblas_status(); }`
boundary, which always produces a status value. -/
def rocblas_cher2_strided_batched (fault : Option rocblas_fault)
    (handle : Option rocblas_handle_t) (a : Her2Args) (env : Her2Env) :
    rocblas_status :=
  match rocblas_her2_strided_batched_body fault handle a env with
  | .ok s => s
  | .error f => exception_to_rocblas_status f

/-- The same boundary viewed as an exception-transparent computation: a
result of `.error` would mean an exception crossed the public boundary
uncaught. -/
def rocblas_cher2_strided_batched_caught (fault : Option rocblas_fault)
    (handle : Option rocblas_handle_t) (a : Her2Args) (env : Her2Env) :
    Except rocblas_fault rocblas_status :=
  match rocblas_her2_strided_batched_body fault handle a env with
  | .ok s => .ok s
  | .error f => .ok (exception_to_rocblas_status f)

/-- A plain handle: normal execution mode, numerics checking off. -/
def handle_plain : rocblas_handle_t :=
  { is_device_memory_size_query := false, check_numerics := 0,
    pointer_mode := rocblas_pointer_mode.host }

/-- A handle with numerics checking enabled. -/
def handle_checking : rocblas_handle_t :=
  { is_device_memory_size_query := false, check_numerics := 1,
    pointer_mode := rocblas_pointer_mode.host }

/-- A handle in device-memory size-query mode. -/
def handle_query : rocblas_handle_t :=
  { is_device_memory_size_query := true, check_numerics := 0,
    pointer_mode := rocblas_pointer_mode.host }

/-- A callee environment in which every external step succeeds. -/
def env_quiet : Her2Env :=
  { pre_scan := .success, compute := .success, post_scan := .success }

/-- A her2 call with legal geometry and non-null pointers. -/
def her2_args_ok : Her2Args :=
  { uplo := rocblas_fill.lower, n := 2, alpha := some (), x := some (),
    incx := 1, stridex := 0, y := some (), incy := 1, stridey := 0,
    A := some (), lda := 2, strideA := 0, batch_count := 1 }

/-- A her2 call with a zero extent (`n = 0`) and, simultaneously, a zero
increment (`incx = 0`); all data pointers non-null. -/
def her2_args_zero_n_zero_incx : Her2Args :=
  { uplo := rocblas_fill.upper, n := 0, alpha := some (), x := some (),
    incx := 0, stridex := 0, y := some (), incy := 1, stridey := 0,
    A := some (), lda := 1, strideA := 0, batch_count := 1 }

/-- A tbmv_batched call with legal geometry and non-null pointers. -/
def tbmv_args_ok : TbmvArgs :=
  { uplo := rocblas_fill.lower, transA := rocblas_operation.op_none,
    diag := rocblas_diagonal.non_unit, n := 2, k := 0, A := some (),
    lda := 1, x := some (), incx := 1, batch_count := 1 }

/-- A tbmv callee environment in which every external step succeeds. -/
def tbmv_env_ok : TbmvEnv :=
  { malloc_ok := true, setup := .success, pre_scan := .success,
    compute := .success, post_scan := .success }

/-- An all-ones element memory. -/
def mem_ones : Int → CInt := fun _ => ⟨1, 0⟩

/-- An element memory whose value records its index, distinguishing
every position. -/
def mem_index : Int → CInt := fun i => ⟨i, 0⟩

/-- An all-finite nonzero scan buffer. -/
def buf_finite : Int → fp_elem := fun _ => ⟨⟨false, false, false⟩, fp_zero_part⟩

/-- A scan buffer whose element at index 0 is NaN and which is finite
elsewhere. -/
def buf_nan_at_zero : Int → fp_elem := fun i =>
  if i = 0 then ⟨⟨true, false, false⟩, fp_zero_part⟩ else ⟨⟨false, false, false⟩, fp_zero_part⟩


/-- C1: argument validation applies its rules in strict first-match-wins
order.  For `rocblas_her2_strided_batched_impl` (in normal, non-query
mode): a null handle returns `invalid_handle` before anything else; an
illegal fill mode returns `invalid_value`; with a legal fill mode, a
size/stride violation returns `invalid_size` for every pointer
configuration, null pointers included; with legal sizes, a degenerate
problem returns `success`; a non-degenerate problem with a null required
pointer returns `invalid_pointer`.  For `rocblas_ger_arg_check`: a
size/stride violation returns `invalid_size` for every pointer
configuration; then a degenerate problem returns `success`; then a null
required pointer returns `invalid_pointer`; otherwise the verdict is
`continue`. -/
theorem validation_first_match_wins
    (h : rocblas_handle_t) (hq : h.is_device_memory_size_query = false)
    (a : Her2Args) (env : Her2Env)
    (m n : Int) (alpha x y A : Option Unit) (incx incy lda batch_count : Int) :
    ((rocblas_her2_strided_batched_impl none a env).1 = rocblas_status.invalid_handle
    ∧ (a.uplo ≠ rocblas_fill.lower ∧ a.uplo ≠ rocblas_fill.upper →
        (rocblas_her2_strided_batched_impl (some h) a env).1 = rocblas_status.invalid_value)
    ∧ ((a.uplo = rocblas_fill.lower ∨ a.uplo = rocblas_fill.upper) →
        (a.n < 0 ∨ a.incx = 0 ∨ a.incy = 0 ∨ a.batch_count < 0 ∨ a.lda < a.n ∨ a.lda < 1) →
        (rocblas_her2_strided_batched_impl (some h) a env).1 = rocblas_status.invalid_size)
    ∧ ((a.uplo = rocblas_fill.lower ∨ a.uplo = rocblas_fill.upper) →
        ¬(a.n < 0 ∨ a.incx = 0 ∨ a.incy = 0 ∨ a.batch_count < 0 ∨ a.lda < a.n ∨ a.lda < 1) →
        (a.n = 0 ∨ a.batch_count = 0) →
        (rocblas_her2_strided_batched_impl (some h) a env).1 = rocblas_status.success)
    ∧ ((a.uplo = rocblas_fill.lower ∨ a.uplo = rocblas_fill.upper) →
        ¬(a.n < 0 ∨ a.incx = 0 ∨ a.incy = 0 ∨ a.batch_count < 0 ∨ a.lda < a.n ∨ a.lda < 1) →
        ¬(a.n = 0 ∨ a.batch_count = 0) →
        (a.x.isNone ∨ a.y.isNone ∨ a.A.isNone ∨ a.alpha.isNone) →
        (rocblas_her2_strided_batched_impl (some h) a env).1 = rocblas_status.invalid_pointer))
    ∧ (((m < 0 ∨ n < 0 ∨ incx = 0 ∨ incy = 0 ∨ lda < m ∨ lda < 1 ∨ batch_count < 0) →
        rocblas_ger_arg_check m n alpha x incx y incy A lda batch_count
          = rocblas_status.invalid_size)
    ∧ (¬(m < 0 ∨ n < 0 ∨ incx = 0 ∨ incy = 0 ∨ lda < m ∨ lda < 1 ∨ batch_count < 0) →
        (m = 0 ∨ n = 0 ∨ batch_count = 0) →
        rocblas_ger_arg_check m n alpha x incx y incy A lda batch_count
          = rocblas_status.success)
    ∧ (¬(m < 0 ∨ n < 0 ∨ incx = 0 ∨ incy = 0 ∨ lda < m ∨ lda < 1 ∨ batch_count < 0) →
        ¬(m = 0 ∨ n = 0 ∨ batch_count = 0) →
        (alpha.isNone ∨ x.isNone ∨ y.isNone ∨ A.isNone) →
        rocblas_ger_arg_check m n alpha x incx y incy A lda batch_count
          = rocblas_status.invalid_pointer)
    ∧ (¬(m < 0 ∨ n < 0 ∨ incx = 0 ∨ incy = 0 ∨ lda < m ∨ lda < 1 ∨ batch_count < 0) →
        ¬(m = 0 ∨ n = 0 ∨ batch_count = 0) →
        ¬(alpha.isNone ∨ x.isNone ∨ y.isNone ∨ A.isNone) →
        rocblas_ger_arg_check m n alpha x incx y incy A lda batch_count
          = rocblas_status.continue_)) := by
  refine ⟨⟨rfl, ?_, ?_, ?_, ?_⟩, ?_, ?_, ?_, ?_⟩
  · intro hv
    simp only [rocblas_her2_strided_batched_impl]
    rw [if_neg (by simp [hq]), if_pos hv]
  · intro hu hsz
    simp only [rocblas_her2_strided_batched_impl]
    rw [if_neg (by simp [hq]), if_neg (by tauto), if_pos hsz]
  · intro hu hnsz hdeg
    simp only [rocblas_her2_strided_batched_impl]
    rw [if_neg (by simp [hq]), if_neg (by tauto), if_neg hnsz, if_pos hdeg]
  · intro hu hnsz hnd hptr
    simp only [rocblas_her2_strided_batched_impl]
    rw [if_neg (by simp [hq]), if_neg (by tauto), if_neg hnsz, if_neg hnd, if_pos hptr]
  · intro hsz
    unfold rocblas_ger_arg_check
    rw [if_pos hsz]
  · intro hnsz hdeg
    unfold rocblas_ger_arg_check
    rw [if_neg hnsz, if_pos hdeg]
  · intro hnsz hnd hptr
    unfold rocblas_ger_arg_check
    rw [if_neg hnsz, if_neg hnd, if_pos hptr]
  · intro hnsz hnd hnptr
    unfold rocblas_ger_arg_check
    rw [if_neg hnsz, if_neg hnd, if_neg hnptr]

/-- Witness for C1: the hypothesis and the first clause of the
conclusion at a concrete handle and concrete arguments. -/
theorem validation_first_match_wins_witness :
    handle_plain.is_device_memory_size_query = false
    ∧ (rocblas_her2_strided_batched_impl none her2_args_ok env_quiet).1
        = rocblas_status.invalid_handle :=
  ⟨rfl, (validation_first_match_wins handle_plain rfl her2_args_ok env_quiet
    1 1 (some ()) (some ()) (some ()) (some ()) 1 1 1 1).1.1⟩

/-- C2 counterexample: a call whose extent `n` is 0 does NOT always
return `success` — with `n = 0` and a simultaneous size/stride violation
(`incx = 0`), `rocblas_her2_strided_batched_impl` returns `invalid_size`
(the size check precedes the degenerate quick return), with every data
pointer non-null. -/
theorem zero_extent_not_always_success_counterexample :
    (rocblas_her2_strided_batched_impl (some handle_plain) her2_args_zero_n_zero_incx
        env_quiet).1 = rocblas_status.invalid_size
    ∧ (rocblas_her2_strided_batched_impl (some handle_plain) her2_args_zero_n_zero_incx
        env_quiet).1 ≠ rocblas_status.success := by
  exact ⟨by decide, by decide⟩

/-- C2 amended: provided no size/stride rule earlier in the validation
order fires (and, for her2, the fill mode is legal and the handle is in
normal mode), a batch count of 0 or an extent of 0 makes the call return
`success` immediately with no device-side effect (in particular no
kernel launch), for every pointer configuration, null pointers
included — both for `rocblas_her2_strided_batched_impl` and for
`rocblas_ger_arg_check`. -/
theorem quick_return_zero_sizes
    (h : rocblas_handle_t) (hq : h.is_device_memory_size_query = false)
    (a : Her2Args) (env : Her2Env)
    (hu : a.uplo = rocblas_fill.lower ∨ a.uplo = rocblas_fill.upper)
    (hnsz : ¬(a.n < 0 ∨ a.incx = 0 ∨ a.incy = 0 ∨ a.batch_count < 0
        ∨ a.lda < a.n ∨ a.lda < 1))
    (hdeg : a.n = 0 ∨ a.batch_count = 0)
    (m n : Int) (alpha x y A : Option Unit) (incx incy lda batch_count : Int)
    (hnsz2 : ¬(m < 0 ∨ n < 0 ∨ incx = 0 ∨ incy = 0 ∨ lda < m ∨ lda < 1 ∨ batch_count < 0))
    (hdeg2 : m = 0 ∨ n = 0 ∨ batch_count = 0) :
    rocblas_her2_strided_batched_impl (some h) a env = (rocblas_status.success, [])
    ∧ rocblas_ger_arg_check m n alpha x incx y incy A lda batch_count
        = rocblas_status.success := by
  constructor
  · simp only [rocblas_her2_strided_batched_impl]
    rw [if_neg (by simp [hq]), if_neg (by tauto), if_neg hnsz, if_pos hdeg]
  · unfold rocblas_ger_arg_check
    rw [if_neg hnsz2, if_pos hdeg2]

/-- Witness for C2 amended: zero batch count with legal sizes and null
pointers returns `success` with no effects. -/
theorem quick_return_zero_sizes_witness :
    handle_plain.is_device_memory_size_query = false
    ∧ rocblas_her2_strided_batched_impl (some handle_plain)
        { uplo := rocblas_fill.lower, n := 0, alpha := none, x := none, incx := 1,
          stridex := 0, y := none, incy := 1, stridey := 0, A := none, lda := 1,
          strideA := 0, batch_count := 1 } env_quiet = (rocblas_status.success, [])
    ∧ rocblas_ger_arg_check 0 3 none none 1 none 1 none 1 1 = rocblas_status.success := by
  refine ⟨rfl, ?_⟩
  have := quick_return_zero_sizes handle_plain rfl
    { uplo := rocblas_fill.lower, n := 0, alpha := none, x := none, incx := 1,
      stridex := 0, y := none, incy := 1, stridey := 0, A := none, lda := 1,
      strideA := 0, batch_count := 1 } env_quiet
    (by decide) (by decide) (by decide)
    0 3 none none none none 1 1 1 1 (by decide) (by decide)
  exact this

/-- C3: on a non-degenerate problem with legal sizes (and, for her2, a
legal fill mode and normal mode), a null required operand, scalar or
result pointer makes the call return `invalid_pointer` — both for
`rocblas_her2_strided_batched_impl` (any of `x`, `y`, `A`, `alpha` null)
and for `rocblas_ger_arg_check` (any of `alpha`, `x`, `y`, `A` null). -/
theorem nondegenerate_null_pointer_invalid
    (h : rocblas_handle_t) (hq : h.is_device_memory_size_query = false)
    (a : Her2Args) (env : Her2Env)
    (hu : a.uplo = rocblas_fill.lower ∨ a.uplo = rocblas_fill.upper)
    (hnsz : ¬(a.n < 0 ∨ a.incx = 0 ∨ a.incy = 0 ∨ a.batch_count < 0
        ∨ a.lda < a.n ∨ a.lda < 1))
    (hnd : ¬(a.n = 0 ∨ a.batch_count = 0))
    (hptr : a.x.isNone ∨ a.y.isNone ∨ a.A.isNone ∨ a.alpha.isNone)
    (m n : Int) (alpha x y A : Option Unit) (incx incy lda batch_count : Int)
    (hnsz2 : ¬(m < 0 ∨ n < 0 ∨ incx = 0 ∨ incy = 0 ∨ lda < m ∨ lda < 1 ∨ batch_count < 0))
    (hnd2 : ¬(m = 0 ∨ n = 0 ∨ batch_count = 0))
    (hptr2 : alpha.isNone ∨ x.isNone ∨ y.isNone ∨ A.isNone) :
    (rocblas_her2_strided_batched_impl (some h) a env).1 = rocblas_status.invalid_pointer
    ∧ rocblas_ger_arg_check m n alpha x incx y incy A lda batch_count
        = rocblas_status.invalid_pointer := by
  constructor
  · simp only [rocblas_her2_strided_batched_impl]
    rw [if_neg (by simp [hq]), if_neg (by tauto), if_neg hnsz, if_neg hnd, if_pos hptr]
  · unfold rocblas_ger_arg_check
    rw [if_neg hnsz2, if_neg hnd2, if_pos hptr2]

/-- Witness for C3: a legal-shaped her2 call with a null `alpha` and a
legal-shaped ger call with a null `x` both report `invalid_pointer`. -/
theorem nondegenerate_null_pointer_invalid_witness :
    handle_plain.is_device_memory_size_query = false
    ∧ (rocblas_her2_strided_batched_impl (some handle_plain)
        { uplo := rocblas_fill.lower, n := 2, alpha := none, x := some (), incx := 1,
          stridex := 0, y := some (), incy := 1, stridey := 0, A := some (), lda := 2,
          strideA := 0, batch_count := 1 } env_quiet).1 = rocblas_status.invalid_pointer
    ∧ rocblas_ger_arg_check 2 3 (some ()) none 1 (some ()) 1 (some ()) 2 1
        = rocblas_status.invalid_pointer := by
  refine ⟨rfl, ?_⟩
  exact nondegenerate_null_pointer_invalid handle_plain rfl
    { uplo := rocblas_fill.lower, n := 2, alpha := none, x := some (), incx := 1,
      stridex := 0, y := some (), incy := 1, stridey := 0, A := some (), lda := 2,
      strideA := 0, batch_count := 1 } env_quiet
    (by decide) (by decide) (by decide) (by decide)
    2 3 (some ()) none (some ()) (some ()) 1 1 2 1
    (by decide) (by decide) (by decide)

/-- C4: the public entry point `rocblas_cher2_strided_batched` always
produces exactly one status value from the closed enumeration: the
try/catch boundary never lets an internal fault escape (the caught view
is always `ok`), a fault raised during the call is mapped through
`exception_to_rocblas_status`, and a fault-free call returns the
implementation status unchanged. -/
theorem public_boundary_no_exception (fault : Option rocblas_fault)
    (handle : Option rocblas_handle_t) (a : Her2Args) (env : Her2Env) :
    rocblas_cher2_strided_batched_caught fault handle a env
      = Except.ok (rocblas_cher2_strided_batched fault handle a env)
    ∧ (∀ f, fault = some f →
        rocblas_cher2_strided_batched fault handle a env = exception_to_rocblas_status f)
    ∧ (fault = none →
        rocblas_cher2_strided_batched fault handle a env
          = (rocblas_her2_strided_batched_impl handle a env).1) := by
  cases fault with
  | none =>
    exact ⟨rfl, ⟨fun f hf => by simp at hf, fun _ => rfl⟩⟩
  | some f =>
    refine ⟨rfl, ⟨fun g hg => ?_, fun hn => by simp at hn⟩⟩
    injection hg with h1
    subst h1
    rfl

/-- Witness for C4: a concrete fault raised inside a concrete call is
caught and mapped to `internal_error`. -/
theorem public_boundary_no_exception_witness :
    some (rocblas_fault.fault 7) = some (rocblas_fault.fault 7)
    ∧ rocblas_cher2_strided_batched (some (rocblas_fault.fault 7)) (some handle_plain)
        her2_args_ok env_quiet = exception_to_rocblas_status (rocblas_fault.fault 7) :=
  ⟨rfl, (public_boundary_no_exception (some (rocblas_fault.fault 7)) (some handle_plain)
    her2_args_ok env_quiet).2.1 (rocblas_fault.fault 7) rfl⟩

/-- The vector scan only ever yields `success` or `check_numerics_fail`. -/
theorem vector_scan_result_cases (n : Int) (x : Int → fp_elem)
    (offset inc stride batch_count cn : Int) (inp : Bool) :
    rocblas_check_numerics_vector_template n x offset inc stride batch_count cn inp
      = rocblas_status.success
    ∨ rocblas_check_numerics_vector_template n x offset inc stride batch_count cn inp
      = rocblas_status.check_numerics_fail := by
  unfold rocblas_check_numerics_vector_template
  split_ifs <;> simp

/-- The matrix scan only ever yields `success` or `check_numerics_fail`. -/
theorem matrix_scan_result_cases (m n : Int) (A : Int → fp_elem)
    (offset lda stride batch_count cn : Int) (inp : Bool) :
    rocblas_check_numerics_ge_matrix_template m n A offset lda stride batch_count cn inp
      = rocblas_status.success
    ∨ rocblas_check_numerics_ge_matrix_template m n A offset lda stride batch_count cn inp
      = rocblas_status.check_numerics_fail := by
  unfold rocblas_check_numerics_ge_matrix_template
  split_ifs <;> simp

/-- C5: with numerics checking enabled, the buffer scan returns
`check_numerics_fail` exactly when some scanned element is non-finite
(NaN or Inf in either component); every all-finite buffer scans to
`success`, in particular the all-zero buffer; and the composite
`rocblas_ger_check_numerics` fails exactly when one of its three
buffer scans fails. -/
theorem check_numerics_scan_detects_nonfinite
    (n : Int) (x : Int → fp_elem) (offset inc stride batch_count cn : Int)
    (inp : Bool) (hcn : cn ≠ 0)
    (m2 n2 : Int) (A2 x2 y2 : Int → fp_elem)
    (oa la sa ox ix sx oy iy sy bc2 : Int) (inp2 : Bool) :
    (rocblas_check_numerics_vector_template n x offset inc stride batch_count cn inp
        = rocblas_status.check_numerics_fail
      ↔ ∃ b < batch_count.toNat, ∃ i < n.toNat,
          fp_elem_nonfinite (x (offset + (b : Int) * stride + (i : Int) * inc)) = true)
    ∧ ((∀ b < batch_count.toNat, ∀ i < n.toNat,
          fp_elem_nonfinite (x (offset + (b : Int) * stride + (i : Int) * inc)) = false) →
        rocblas_check_numerics_vector_template n x offset inc stride batch_count cn inp
          = rocblas_status.success)
    ∧ rocblas_check_numerics_vector_template n (fun _ => fp_zero) offset inc stride
        batch_count cn inp = rocblas_status.success
    ∧ (rocblas_ger_check_numerics m2 n2 A2 oa la sa x2 ox ix sx y2 oy iy sy bc2 cn inp2
        = rocblas_status.check_numerics_fail
      ↔ (rocblas_check_numerics_ge_matrix_template m2 n2 A2 oa la sa bc2 cn inp2
            = rocblas_status.check_numerics_fail
        ∨ rocblas_check_numerics_vector_template m2 x2 ox ix sx bc2 cn inp2
            = rocblas_status.check_numerics_fail
        ∨ rocblas_check_numerics_vector_template n2 y2 oy iy sy bc2 cn inp2
            = rocblas_status.check_numerics_fail)) := by
  refine ⟨?_, ?_, ?_, ?_⟩
  · unfold rocblas_check_numerics_vector_template
    rw [if_neg hcn]
    split_ifs with ha
    · simp only [List.any_eq_true, List.mem_range] at ha
      obtain ⟨b, hb, i, hi, hnf⟩ := ha
      exact ⟨fun _ => ⟨b, hb, i, hi, hnf⟩, fun _ => rfl⟩
    · simp only [List.any_eq_true, List.mem_range] at ha
      constructor
      · intro hcontra
        exact absurd hcontra (by simp)
      · rintro ⟨b, hb, i, hi, hnf⟩
        exact absurd ⟨b, hb, i, hi, hnf⟩ ha
  · intro hall
    unfold rocblas_check_numerics_vector_template
    rw [if_neg hcn, if_neg ?_]
    simp only [List.any_eq_true, List.mem_range]
    rintro ⟨b, hb, i, hi, hnf⟩
    rw [hall b hb i hi] at hnf
    exact Bool.false_ne_true hnf
  · unfold rocblas_check_numerics_vector_template
    rw [if_neg hcn]
    simp [fp_elem_nonfinite, fp_part_nonfinite, fp_zero, fp_zero_part]
  · rcases matrix_scan_result_cases m2 n2 A2 oa la sa bc2 cn inp2 with h1 | h1 <;>
      rcases vector_scan_result_cases m2 x2 ox ix sx bc2 cn inp2 with h2 | h2 <;>
        rcases vector_scan_result_cases n2 y2 oy iy sy bc2 cn inp2 with h3 | h3 <;>
          simp [rocblas_ger_check_numerics, h1, h2, h3]

/-- Witness for C5: with checking enabled (flag 1), the all-zero buffer
scans to `success`, and a buffer with a NaN at index 0 makes the
composite ger check fail. -/
theorem check_numerics_scan_detects_nonfinite_witness :
    (1 : Int) ≠ 0
    ∧ rocblas_check_numerics_vector_template 2 (fun _ => fp_zero) 0 1 0 1 1 true
        = rocblas_status.success :=
  ⟨by decide,
   (check_numerics_scan_detects_nonfinite 2 buf_finite 0 1 0 1 1 true (by decide)
     1 1 buf_nan_at_zero buf_finite buf_finite 0 1 0 0 1 0 0 1 0 1 true).2.2.1⟩

/-- C6: with numerics checking enabled on a call that passes validation,
a pre-dispatch scan failure makes `rocblas_her2_strided_batched_impl`
return `check_numerics_fail` with no device-side effect at all — in
particular the compute kernel is never launched; and when the pre-scan
and the dispatch succeed, a post-dispatch scan failure likewise makes
the call return `check_numerics_fail` immediately. -/
theorem numerics_failure_aborts_and_propagates
    (h : rocblas_handle_t) (a : Her2Args) (env : Her2Env)
    (hq : h.is_device_memory_size_query = false)
    (hcn : h.check_numerics ≠ 0)
    (hu : a.uplo = rocblas_fill.lower ∨ a.uplo = rocblas_fill.upper)
    (hnsz : ¬(a.n < 0 ∨ a.incx = 0 ∨ a.incy = 0 ∨ a.batch_count < 0
        ∨ a.lda < a.n ∨ a.lda < 1))
    (hnd : ¬(a.n = 0 ∨ a.batch_count = 0))
    (hnptr : ¬(a.x.isNone ∨ a.y.isNone ∨ a.A.isNone ∨ a.alpha.isNone)) :
    (env.pre_scan = rocblas_status.check_numerics_fail →
        rocblas_her2_strided_batched_impl (some h) a env
          = (rocblas_status.check_numerics_fail, [])
        ∧ DeviceEffect.kernel_launch ∉ (rocblas_her2_strided_batched_impl (some h) a env).2)
    ∧ (env.pre_scan = rocblas_status.success → env.compute = rocblas_status.success →
        env.post_scan = rocblas_status.check_numerics_fail →
        (rocblas_her2_strided_batched_impl (some h) a env).1
          = rocblas_status.check_numerics_fail) := by
  constructor
  · intro hpre
    have himpl : rocblas_her2_strided_batched_impl (some h) a env
        = (rocblas_status.check_numerics_fail, []) := by
      simp only [rocblas_her2_strided_batched_impl]
      rw [if_neg (by simp [hq]), if_neg (by tauto), if_neg hnsz, if_neg hnd, if_neg hnptr,
        if_pos ⟨hcn, by rw [hpre]; simp⟩, hpre]
    exact ⟨himpl, by rw [himpl]; simp⟩
  · intro hpre hcomp hpost
    simp only [rocblas_her2_strided_batched_impl]
    rw [if_neg (by simp [hq]), if_neg (by tauto), if_neg hnsz, if_neg hnd, if_neg hnptr,
      if_neg (by rw [hpre]; simp), if_neg (by rw [hcomp]; simp),
      if_pos ⟨hcn, by rw [hpost]; simp⟩, hpost]

/-- Witness for C6: with checking enabled and a failing pre-scan on a
legal call, the result is `check_numerics_fail` with no effects. -/
theorem numerics_failure_aborts_and_propagates_witness :
    { pre_scan := rocblas_status.check_numerics_fail, compute := rocblas_status.success,
      post_scan := rocblas_status.success : Her2Env }.pre_scan
        = rocblas_status.check_numerics_fail
    ∧ rocblas_her2_strided_batched_impl (some handle_checking) her2_args_ok
        { pre_scan := rocblas_status.check_numerics_fail, compute := rocblas_status.success,
          post_scan := rocblas_status.success }
        = (rocblas_status.check_numerics_fail, [])
    ∧ DeviceEffect.kernel_launch ∉ (rocblas_her2_strided_batched_impl (some handle_checking)
        her2_args_ok
        { pre_scan := rocblas_status.check_numerics_fail, compute := rocblas_status.success,
          post_scan := rocblas_status.success }).2 := by
  refine ⟨rfl, ?_⟩
  have := (numerics_failure_aborts_and_propagates handle_checking her2_args_ok
    { pre_scan := rocblas_status.check_numerics_fail, compute := rocblas_status.success,
      post_scan := rocblas_status.success }
    rfl (by decide) (by decide) (by decide) (by decide) (by decide)).1 rfl
  exact this

/-- C7: a `ger_kernel` grid for a batch item whose loaded alpha is zero
early-returns without writing: the `A` memory after the kernel is
exactly the `A` memory before it (part_002 lines 39-41). -/
theorem ger_kernel_zero_alpha_no_write
    (CONJ : Bool) (m n : Nat) (alpha_device_host : scalar_arg) (stride_alpha : Int)
    (xa : Int → CInt) (shiftx incx stridex : Int)
    (ya : Int → CInt) (shifty incy stridey : Int)
    (Aa : Int → CInt) (shifta lda strideA : Int) (z : Nat)
    (h0 : load_scalar alpha_device_host z stride_alpha = 0) :
    ger_kernel CONJ m n alpha_device_host stride_alpha xa shiftx incx stridex
      ya shifty incy stridey Aa shifta lda strideA z = Aa := by
  unfold ger_kernel
  simp [h0]

/-- Witness for C7: a host-resident zero alpha on a concrete 2 by 3
problem leaves the concrete `A` memory unchanged. -/
theorem ger_kernel_zero_alpha_no_write_witness :
    load_scalar (scalar_arg.host_value 0) 0 0 = 0
    ∧ ger_kernel false 2 3 (scalar_arg.host_value 0) 0 mem_ones 0 1 0 mem_ones 0 1 0
        mem_index 0 2 0 0 = mem_index :=
  ⟨rfl, ger_kernel_zero_alpha_no_write false 2 3 (scalar_arg.host_value 0) 0
    mem_ones 0 1 0 mem_ones 0 1 0 mem_index 0 2 0 0 rfl⟩

/-- C8: the asum reduction over a zero-length input returns `success`,
every per-batch result is the additive identity 0, and the list of
element indices read is empty — no memory is touched. -/
theorem asum_zero_length_returns_identity
    (x : Nat → Int → CInt) (shiftx incx batch_count : Int) :
    (rocblas_asum_batched_template 0 x shiftx incx batch_count).1 = rocblas_status.success
    ∧ (∀ b, (rocblas_asum_batched_template 0 x shiftx incx batch_count).2.1 b = 0)
    ∧ (rocblas_asum_batched_template 0 x shiftx incx batch_count).2.2 = [] := by
  refine ⟨rfl, fun b => rfl, ?_⟩
  simp [rocblas_asum_batched_template, rocblas_reduction_template,
    rocblas_reduction_strided_batched, reduction_read_indices]

/-- C9: with the handle in device-memory size-query mode,
`rocblas_her2_strided_batched_impl` reports its (zero) required
workspace size and returns with no allocation and no kernel launch, for
every argument and callee outcome; `rocblas_tbmv_batched_impl` on a call
that passes validation reports its required workspace sizes
(`sizeof(T) * n * batch_count` and `sizeof(T*) * batch_count`) and
returns; and for every tbmv argument and callee outcome whatsoever, a
size query neither allocates device memory nor launches a kernel. -/
theorem size_query_reports_size_no_work
    (h : rocblas_handle_t) (hq : h.is_device_memory_size_query = true)
    (a : Her2Args) (env : Her2Env) (sT sP : Int) (ta : TbmvArgs) (tenv : TbmvEnv)
    (harg : rocblas_tbmv_arg_check ta = rocblas_status.continue_)
    (hptr : ¬(ta.A.isNone ∨ ta.x.isNone)) :
    rocblas_her2_strided_batched_impl (some h) a env
      = (rocblas_status.success, [DeviceEffect.set_size 0 0])
    ∧ rocblas_tbmv_batched_impl sT sP (some h) ta tenv
        = (rocblas_status.success,
           [DeviceEffect.set_size (sT * ta.n * ta.batch_count) (sP * ta.batch_count)])
    ∧ (∀ (ta2 : TbmvArgs) (tenv2 : TbmvEnv),
        DeviceEffect.device_alloc ∉ (rocblas_tbmv_batched_impl sT sP (some h) ta2 tenv2).2
        ∧ DeviceEffect.kernel_launch ∉ (rocblas_tbmv_batched_impl sT sP (some h) ta2 tenv2).2) := by
  refine ⟨?_, ?_, ?_⟩
  · simp only [rocblas_her2_strided_batched_impl]
    rw [if_pos (by simp [hq])]
  · simp only [rocblas_tbmv_batched_impl]
    rw [if_neg (by simp [harg]), if_neg hptr, if_pos (by simp [hq])]
  · intro ta2 tenv2
    simp only [rocblas_tbmv_batched_impl, hq]
    split_ifs <;> simp

/-- Witness for C9 at a concrete query-mode handle and a concrete
legal tbmv call. -/
theorem size_query_reports_size_no_work_witness :
    handle_query.is_device_memory_size_query = true
    ∧ rocblas_tbmv_arg_check tbmv_args_ok = rocblas_status.continue_
    ∧ ¬(tbmv_args_ok.A.isNone ∨ tbmv_args_ok.x.isNone)
    ∧ rocblas_her2_strided_batched_impl (some handle_query) her2_args_ok env_quiet
        = (rocblas_status.success, [DeviceEffect.set_size 0 0])
    ∧ rocblas_tbmv_batched_impl 4 8 (some handle_query) tbmv_args_ok tbmv_env_ok
        = (rocblas_status.success,
           [DeviceEffect.set_size (4 * tbmv_args_ok.n * tbmv_args_ok.batch_count)
             (8 * tbmv_args_ok.batch_count)]) := by
  have := size_query_reports_size_no_work handle_query rfl her2_args_ok env_quiet
    4 8 tbmv_args_ok tbmv_env_ok (by decide) (by decide)
  exact ⟨rfl, by decide, by decide, this.1, this.2.1⟩

/-- `ger_kernel` reads the `x` vector only through its per-batch shifted
base at relative indices `i * incx`: two kernels whose `x` reads agree
pointwise produce the same `A` memory. -/
theorem ger_kernel_congr_x
    (CONJ : Bool) (m n : Nat) (alpha_device_host : scalar_arg) (stride_alpha : Int)
    (xa xa2 : Int → CInt) (shiftx shiftx2 incx incx2 stridex stridex2 : Int)
    (ya : Int → CInt) (shifty incy stridey : Int)
    (Aa : Int → CInt) (shifta lda strideA : Int) (z : Nat)
    (hread : ∀ i : Nat,
        xa (shiftx + (z : Int) * stridex + (i : Int) * incx)
          = xa2 (shiftx2 + (z : Int) * stridex2 + (i : Int) * incx2)) :
    ger_kernel CONJ m n alpha_device_host stride_alpha xa shiftx incx stridex
      ya shifty incy stridey Aa shifta lda strideA z
    = ger_kernel CONJ m n alpha_device_host stride_alpha xa2 shiftx2 incx2 stridex2
      ya shifty incy stridey Aa shifta lda strideA z := by
  simp only [ger_kernel, load_ptr_batch]
  by_cases h0 : load_scalar alpha_device_host z stride_alpha = 0
  · rw [if_pos h0, if_pos h0]
  · rw [if_neg h0, if_neg h0]
    congr 1
    funext A ij
    funext idx
    rw [hread ij.1]

/-- C10: for a ger call with a negative `x` increment, the base shift
`offsetx - incx * (m - 1)` computed by `rocblas_ger_template` makes
every `x` access land inside the caller's buffer
(`[offsetx, offsetx + (m - 1) * |incx|]`), and the call computes exactly
what the call with the element order of `x` reversed and increment
`-incx` computes. -/
theorem ger_negative_incx_reversal
    (CONJ : Bool) (m n : Int) (alpha : scalar_arg) (stride_alpha : Int)
    (x : Int → CInt) (offsetx incx stridex : Int)
    (y : Int → CInt) (offsety incy stridey : Int)
    (A : Int → CInt) (offsetA lda strideA : Int) (batch_count : Int)
    (hneg : incx < 0) :
    (∀ i : Int, 0 ≤ i → i < m →
        offsetx ≤ ger_shift offsetx incx m + i * incx
        ∧ ger_shift offsetx incx m + i * incx ≤ offsetx + (m - 1) * (-incx))
    ∧ rocblas_ger_template_batch CONJ m n alpha stride_alpha x offsetx incx stridex
          y offsety incy stridey A offsetA lda strideA batch_count 0
      = rocblas_ger_template_batch CONJ m n alpha stride_alpha
          (reverse_vec_mem x offsetx (-incx) m) offsetx (-incx) stridex
          y offsety incy stridey A offsetA lda strideA batch_count 0 := by
  constructor
  · intro i hi him
    rw [ger_shift, if_pos hneg]
    constructor
    · nlinarith [mul_nonneg (by linarith : (0 : Int) ≤ -incx)
        (by linarith : (0 : Int) ≤ m - 1 - i)]
    · nlinarith [mul_nonpos_of_nonneg_of_nonpos hi (le_of_lt hneg)]
  · unfold rocblas_ger_template_batch
    by_cases hqr : m = 0 ∨ n = 0 ∨ batch_count = 0
    · rw [if_pos hqr, if_pos hqr]
    · rw [if_neg hqr, if_neg hqr]
      apply ger_kernel_congr_x
      intro i
      simp only [reverse_vec_mem, ger_shift, if_pos hneg,
        if_neg (show ¬(-incx < 0) by omega)]
      apply congrArg
      push_cast
      ring

/-- Witness for C10: with `incx = -1` on a concrete 3 by 2 problem, the
call equals the call on the reversed vector with increment 1. -/
theorem ger_negative_incx_reversal_witness :
    (-1 : Int) < 0
    ∧ rocblas_ger_template_batch false 3 2 (scalar_arg.host_value ⟨1, 0⟩) 0
        mem_index 0 (-1) 0 mem_ones 0 1 0 mem_ones 0 3 0 1 0
      = rocblas_ger_template_batch false 3 2 (scalar_arg.host_value ⟨1, 0⟩) 0
        (reverse_vec_mem mem_index 0 1 3) 0 1 0 mem_ones 0 1 0 mem_ones 0 3 0 1 0 := by
  refine ⟨by decide, ?_⟩
  have := (ger_negative_incx_reversal false 3 2 (scalar_arg.host_value ⟨1, 0⟩) 0
    mem_index 0 (-1) 0 mem_ones 0 1 0 mem_ones 0 3 0 1 (by decide)).2
  simpa using this
